import Mathlib

/-!
# Verification of the ollystack stream-processing engine

A shallow embedding of the core of `src/stream-processor` (the stream
engine, its three analytics components and the sink/fan-out effect order)
together with proofs that settle the frozen claims about it.

Modelling conventions:
* Rust `HashMap<String, V>` becomes a functional map `String → Option V`
  (the hash map's get/insert semantics; its iteration order is unspecified
  in Rust and never relied on by the code under scrutiny).
* Machine integers `i64`/`u64`/`usize` become `ℤ`/`ℕ`; the one narrowing
  cast in the code (`(end_time - start_time) as u64` in topology
  discovery) is modelled exactly as the two's-complement reinterpretation
  `x mod 2^64`.
* `f64` values become `ℚ`.  Every floating-point expression in the code is
  a comparison of a quotient against a literal threshold; these are
  modelled as exact rational comparisons.  The two places where IEEE-754
  special values matter are modelled explicitly and faithfully:
  - `check_traces` on an empty batch divides `0.0 / 0.0 = NaN`, and every
    `NaN > c` comparison is false, so no branch fires; in the rational
    model division by zero yields `0`, and both comparisons are likewise
    false, so the observable result (no alert) is identical;
  - `check_metrics` divides by `baseline.std_dev` with no zero guard; for
    `std_dev = 0` IEEE division yields `±∞` when `value ≠ mean` (so
    `z.abs() > 3.0` is true) and `NaN` when `value = mean` (so the
    comparison is false).  This is captured by the dedicated predicate
    `zExceeds` below.
* `Alert` is modelled by its name, severity and label map.  The `id`
  (a fresh UUID) and `timestamp` (wall clock at emission) fields are
  nondeterministic environment values and the `message` is a formatted
  rendering of numbers already determined by the inputs; none of them is
  mentioned by any claim beyond the name/severity, so they are omitted.
-/

/-! ## Data model (src/stream-processor/src/engine.rs) -/

/-- `SpanStatus` from engine.rs: `Ok` or `Error(reason)`. -/
inductive SpanStatus where
  | ok : SpanStatus
  | error : String → SpanStatus
deriving DecidableEq

/-- `Span` from engine.rs.  `attributes` is an association list standing for
the string-keyed `HashMap`; only `get("peer.service")` is ever used. -/
structure Span where
  trace_id : String
  span_id : String
  parent_span_id : Option String
  operation_name : String
  service_name : String
  start_time : ℤ
  end_time : ℤ
  status : SpanStatus
  attributes : List (String × String)
deriving DecidableEq

/-- `MetricType` from engine.rs. -/
inductive MetricType where
  | counter | gauge | histogram | summary
deriving DecidableEq

/-- `Metric` from engine.rs; `value : f64` is modelled as `ℚ`. -/
structure Metric where
  name : String
  value : ℚ
  timestamp : ℤ
  labels : List (String × String)
  metric_type : MetricType
deriving DecidableEq

/-- `LogRecord` from engine.rs. -/
structure LogRecord where
  timestamp : ℤ
  severity : String
  body : String
  trace_id : Option String
  span_id : Option String
  attributes : List (String × String)
deriving DecidableEq

/-- `TelemetryData` from engine.rs: the tagged union of batch kinds. -/
inductive TelemetryData where
  | traces : List Span → TelemetryData
  | metrics : List Metric → TelemetryData
  | logs : List LogRecord → TelemetryData
deriving DecidableEq

/-- `AlertSeverity` from engine.rs. -/
inductive AlertSeverity where
  | info | warning | critical
deriving DecidableEq

/-- `Alert` from engine.rs, restricted to the deterministic fields (see the
module comment for why `id`, `timestamp` and `message` are omitted). -/
structure Alert where
  name : String
  severity : AlertSeverity
  labels : List (String × String)
deriving DecidableEq

/-- Rust `matches!(s.status, SpanStatus::Error(_))`. -/
def isError (s : Span) : Bool :=
  match s.status with
  | .error _ => true
  | .ok => false

/-- `attributes.get(key)` on the modelled attribute map. -/
def lookupAttr (attrs : List (String × String)) (key : String) : Option String :=
  (attrs.find? (fun p => p.1 = key)).map Prod.snd

/-! ## Configuration (src/stream-processor/src/config.rs), the fields the
analytics components actually hold. -/

/-- `AnomalyDetectionConfig` from config.rs (`sensitivity : f64` as `ℚ`). -/
structure AnomalyDetectionConfig where
  enabled : Bool
  algorithm : String
  sensitivity : ℚ
deriving DecidableEq

/-- `TraceCorrelationConfig` from config.rs (`window_seconds : u64` as `ℕ`). -/
structure TraceCorrelationConfig where
  enabled : Bool
  window_seconds : ℕ
deriving DecidableEq

/-- `TopologyDiscoveryConfig` from config.rs. -/
structure TopologyDiscoveryConfig where
  enabled : Bool
  update_interval_seconds : ℕ
deriving DecidableEq

/-! ## Anomaly detection (src/stream-processor/src/analytics/mod.rs, lines 9–90) -/

/-- `MetricBaseline` from analytics/mod.rs. -/
structure MetricBaseline where
  mean : ℚ
  std_dev : ℚ
  count : ℕ
deriving DecidableEq

/-- `AnomalyDetector`: the config plus the baseline map. -/
structure AnomalyDetector where
  config : AnomalyDetectionConfig
  baseline_metrics : String → Option MetricBaseline

/-- `AnomalyDetector::new`: stores the config and an empty baseline map.
(The Rust constructor returns `Result` but can only succeed.) -/
def AnomalyDetector.new (config : AnomalyDetectionConfig) : AnomalyDetector :=
  { config := config, baseline_metrics := fun _ => none }

/-- Number of spans whose status is `Error(_)` (the `filter … count` in
`check_traces`). -/
def errorCount (spans : List Span) : ℕ :=
  (spans.filter (fun s => isError s)).length

/-- Sum of `(end_time - start_time) as f64` over a batch (exact in `ℚ`). -/
def latencySum (spans : List Span) : ℚ :=
  (spans.map (fun s => ((s.end_time - s.start_time : ℤ) : ℚ))).sum

/-- `AnomalyDetector::check_traces` (analytics/mod.rs lines 29–65).  The Rust
function returns `Result<Option<Alert>>` but has no error path, so the model
returns `Option Alert`.  Division by zero on the empty batch is benign in
both semantics: IEEE gives `NaN` and every `NaN > c` is false, the rational
model gives `0` and both comparisons are likewise false. -/
def AnomalyDetector.check_traces (_d : AnomalyDetector) (spans : List Span) :
    Option Alert :=
  let error_rate : ℚ := (errorCount spans : ℚ) / (spans.length : ℚ)
  if error_rate > 1/10 then
    some { name := "High Error Rate", severity := .critical, labels := [] }
  else
    let avg_latency : ℚ := latencySum spans / (spans.length : ℚ)
    if avg_latency > 1000000000 then
      some { name := "High Latency", severity := .warning, labels := [] }
    else
      none

/-- The IEEE-754 truth value of `((value - mean) / std_dev).abs() > 3.0` for
finite `f64` inputs, as computed by `check_metrics`.  When `std_dev ≠ 0` this
is the exact rational comparison.  When `std_dev = 0` the Rust division
produces `±∞` (if `value ≠ mean`, making the comparison true) or `NaN` (if
`value = mean`, making it false): there is no zero guard in the source. -/
def zExceeds (value mean std_dev : ℚ) : Bool :=
  if std_dev = 0 then decide (value ≠ mean)
  else decide (|(value - mean) / std_dev| > 3)

/-- `AnomalyDetector::check_metrics` (analytics/mod.rs lines 67–89): walk the
batch in input order; a metric with no baseline is skipped; the first metric
whose z-score exceeds the threshold returns its alert immediately. -/
def AnomalyDetector.check_metrics (d : AnomalyDetector) :
    List Metric → Option Alert
  | [] => none
  | m :: rest =>
    match d.baseline_metrics m.name with
    | some baseline =>
      if zExceeds m.value baseline.mean baseline.std_dev then
        some { name := "Anomaly in " ++ m.name, severity := .warning,
               labels := m.labels }
      else
        d.check_metrics rest
    | none => d.check_metrics rest

/-! ## Trace correlation (analytics/mod.rs, lines 92–132) -/

/-- `TraceCorrelator`: config plus the trace window map. -/
structure TraceCorrelator where
  config : TraceCorrelationConfig
  traces : String → Option (List Span)

/-- `TraceCorrelator::new`. -/
def TraceCorrelator.new (config : TraceCorrelationConfig) : TraceCorrelator :=
  { config := config, traces := fun _ => none }

/-- One step of the append loop in `TraceCorrelator::process`:
`entry(trace_id).or_insert_with(Vec::new).push(span)`. -/
def insertSpan (m : String → Option (List Span)) (s : Span) :
    String → Option (List Span) :=
  fun tid => if tid = s.trace_id then some ((m s.trace_id).getD [] ++ [s]) else m tid

/-- The whole append loop of `TraceCorrelator::process`. -/
def insertSpans (m : String → Option (List Span)) (spans : List Span) :
    String → Option (List Span) :=
  spans.foldl insertSpan m

/-- The eviction cutoff `now_ms - window_seconds * 1000` used by
`cleanup_old_traces`; `now` is the value of `Utc::now().timestamp_millis()`
at the call. -/
def cutoffOf (config : TraceCorrelationConfig) (now : ℤ) : ℤ :=
  now - (config.window_seconds * 1000 : ℕ)

/-- `TraceCorrelator::cleanup_old_traces` (analytics/mod.rs lines 120–127):
`retain` keeps exactly the entries with some span beyond the cutoff. -/
def TraceCorrelator.cleanup_old_traces (c : TraceCorrelator) (now : ℤ) :
    TraceCorrelator :=
  { c with traces := fun tid =>
      match c.traces tid with
      | some spans =>
        if spans.any (fun s => cutoffOf c.config now < s.end_time) then some spans
        else none
      | none => none }

/-- `TraceCorrelator::process` (analytics/mod.rs lines 106–118): append every
span to its trace's entry, then evict unconditionally.  (The Rust function
returns `Result` but can only succeed.) -/
def TraceCorrelator.process (c : TraceCorrelator) (spans : List Span) (now : ℤ) :
    TraceCorrelator :=
  TraceCorrelator.cleanup_old_traces
    { c with traces := insertSpans c.traces spans } now

/-- `TraceCorrelator::get_trace`. -/
def TraceCorrelator.get_trace (c : TraceCorrelator) (trace_id : String) :
    Option (List Span) :=
  c.traces trace_id

/-! ## Topology discovery (analytics/mod.rs, lines 134–214) -/

/-- `ServiceInfo` from analytics/mod.rs.  The `u64` counters are modelled as
`ℕ` (the non-panicking executions of the Rust code never wrap them). -/
structure ServiceInfo where
  name : String
  span_count : ℕ
  error_count : ℕ
  total_latency_ns : ℕ
deriving DecidableEq

/-- `EdgeInfo` from analytics/mod.rs. -/
structure EdgeInfo where
  source : String
  target : String
  request_count : ℕ
  error_count : ℕ
deriving DecidableEq

/-- `TopologyDiscovery`: config plus the service and edge maps. -/
structure TopologyDiscovery where
  config : TopologyDiscoveryConfig
  services : String → Option ServiceInfo
  edges : String → Option EdgeInfo

/-- `TopologyDiscovery::new`. -/
def TopologyDiscovery.new (config : TopologyDiscoveryConfig) : TopologyDiscovery :=
  { config := config, services := fun _ => none, edges := fun _ => none }

/-- The Rust cast `x as u64` applied to an in-range `i64`: two's-complement
reinterpretation, i.e. reduction modulo `2^64`. -/
def i64ToU64 (x : ℤ) : ℕ :=
  (x % (2 : ℤ) ^ 64).toNat

/-- The latency contribution of one span in `TopologyDiscovery::process`:
`(span.end_time - span.start_time) as u64`. -/
def spanLatencyU64 (s : Span) : ℕ :=
  i64ToU64 (s.end_time - s.start_time)

/-- The edge key `format!("{}:{}", service_name, peer_service)`. -/
def edgeKey (service peer : String) : String :=
  service ++ ":" ++ peer

/-- The body of the per-span loop in `TopologyDiscovery::process`
(analytics/mod.rs lines 167–202): upsert the span's `ServiceInfo`, then, if
the span carries a `peer.service` attribute, upsert the corresponding
`EdgeInfo`. -/
def stepSpan (t : TopologyDiscovery) (span : Span) : TopologyDiscovery :=
  let s0 := (t.services span.service_name).getD
    { name := span.service_name, span_count := 0, error_count := 0,
      total_latency_ns := 0 }
  let s1 : ServiceInfo :=
    { s0 with
      span_count := s0.span_count + 1,
      total_latency_ns := s0.total_latency_ns + spanLatencyU64 span,
      error_count := s0.error_count + (if isError span then 1 else 0) }
  let services' : String → Option ServiceInfo :=
    fun k => if k = span.service_name then some s1 else t.services k
  match lookupAttr span.attributes "peer.service" with
  | some peer =>
    let key := edgeKey span.service_name peer
    let e0 := (t.edges key).getD
      { source := span.service_name, target := peer, request_count := 0,
        error_count := 0 }
    let e1 : EdgeInfo :=
      { e0 with
        request_count := e0.request_count + 1,
        error_count := e0.error_count + (if isError span then 1 else 0) }
    { t with services := services',
             edges := fun k => if k = key then some e1 else t.edges k }
  | none => { t with services := services' }

/-- `TopologyDiscovery::process` (analytics/mod.rs lines 166–205): fold the
per-span step over the batch.  (The Rust function returns `Result` but can
only succeed.) -/
def TopologyDiscovery.process (t : TopologyDiscovery) (spans : List Span) :
    TopologyDiscovery :=
  spans.foldl stepSpan t

/-- A sequence of `process` calls on successive batches. -/
def TopologyDiscovery.processAll (t : TopologyDiscovery)
    (batches : List (List Span)) : TopologyDiscovery :=
  batches.foldl TopologyDiscovery.process t

/-- The counter triple of a service entry: span count, error count,
cumulative latency. -/
def svcCounters (t : TopologyDiscovery) (k : String) : Option (ℕ × ℕ × ℕ) :=
  (t.services k).map (fun s => (s.span_count, s.error_count, s.total_latency_ns))

/-- The counter pair of an edge entry: request count, error count. -/
def edgeCounters (t : TopologyDiscovery) (k : String) : Option (ℕ × ℕ) :=
  (t.edges k).map (fun e => (e.request_count, e.error_count))

/-! ## The engine (src/stream-processor/src/engine.rs, lines 98–213)

`StreamEngine::process_data` performs, per batch, a sequence of effects on
its collaborators.  The embedding records that sequence explicitly as a
list of `Effect` markers, in the order the code fires them, and threads the
analytics state.  The two fallible effects — `alert_tx.send(alert)` (fails
exactly when no subscriber is alive) and `storage_sink.write(&data)` — are
given their outcomes by an `EffectEnv`; a `?`-propagated failure aborts the
rest of `process_data`, which the model renders by returning the error and
recording only the effects fired up to that point. -/

/-- One observable effect of `process_data`, in firing order. -/
inductive Effect where
  | correlate   -- trace_correlator.process
  | topology    -- topology_discovery.process
  | detect      -- anomaly_detector.check_traces / check_metrics
  | publish     -- alert_tx.send(alert)
  | store       -- storage_sink.write(&data)
deriving DecidableEq

/-- The error that `?` propagates out of `process_data`. -/
inductive EngineError where
  | sendError   -- broadcast send failed (no receivers)
  | writeError  -- storage sink write failed
deriving DecidableEq

/-- Outcomes of the fallible effects during one batch, plus the wall clock
`now` (milliseconds) observed by the trace correlator's eviction. -/
structure EffectEnv where
  sendOk : Bool
  writeOk : Bool
  now : ℤ

/-- The engine state that `process_data` reads and writes: the optional
analytics components (present when enabled by `build_pipeline`) and whether
the storage sink is installed (`build_pipeline` always installs it). -/
structure EngineState where
  anomaly_detector : Option AnomalyDetector
  trace_correlator : Option TraceCorrelator
  topology_discovery : Option TopologyDiscovery
  has_storage : Bool

/-- Result of one `process_data` call: the new state, the effect sequence
fired (in order), and the error `?` propagated to the caller, if any. -/
structure ProcessResult where
  state : EngineState
  fx : List Effect
  err : Option EngineError

/-- The analytics phase of `StreamEngine::process_data` (the `match` on the
batch kind, engine.rs lines 170–204), before the storage write. -/
def processInner (st : EngineState) (env : EffectEnv) (data : TelemetryData) :
    ProcessResult :=
  match data with
  | .traces spans =>
    let (c', fx1) :=
      match st.trace_correlator with
      | some c => (some (c.process spans env.now), [Effect.correlate])
      | none => (none, [])
    let (tp', fx2) :=
      match st.topology_discovery with
      | some tp => (some (tp.process spans), [Effect.topology])
      | none => (none, [])
    let st2 : EngineState :=
      { st with trace_correlator := c', topology_discovery := tp' }
    match st.anomaly_detector with
    | some d =>
      match d.check_traces spans with
      | some _ =>
        { state := st2, fx := fx1 ++ fx2 ++ [Effect.detect, Effect.publish],
          err := if env.sendOk then none else some .sendError }
      | none => { state := st2, fx := fx1 ++ fx2 ++ [Effect.detect], err := none }
    | none => { state := st2, fx := fx1 ++ fx2, err := none }
  | .metrics ms =>
    match st.anomaly_detector with
    | some d =>
      match d.check_metrics ms with
      | some _ =>
        { state := st, fx := [Effect.detect, Effect.publish],
          err := if env.sendOk then none else some .sendError }
      | none => { state := st, fx := [Effect.detect], err := none }
    | none => { state := st, fx := [], err := none }
  | .logs _ => { state := st, fx := [], err := none }

/-- `StreamEngine::process_data` (engine.rs lines 169–212): the analytics
phase, then — only if no earlier `?` fired — the storage write. -/
def processData (st : EngineState) (env : EffectEnv) (data : TelemetryData) :
    ProcessResult :=
  let r := processInner st env data
  match r.err with
  | some e => { r with err := some e }
  | none =>
    if st.has_storage then
      { state := r.state, fx := r.fx ++ [Effect.store],
        err := if env.writeOk then none else some .writeError }
    else
      r

/-- The consume loop of `StreamEngine::run` (engine.rs lines 161–163):
process queued batches in order; `process_data(data).await?` propagates the
first error, which ends the loop and leaves the remaining batches
unconsumed.  Returns the final state, the per-batch effect sequences of the
batches actually processed, and the propagated error, if any. -/
def runLoop (st : EngineState) :
    List (EffectEnv × TelemetryData) → EngineState × List (List Effect) × Option EngineError
  | [] => (st, [], none)
  | (env, data) :: rest =>
    let r := processData st env data
    match r.err with
    | some e => (r.state, [r.fx], some e)
    | none =>
      let (st', fxs, err) := runLoop r.state rest
      (st', r.fx :: fxs, err)

/-! ## Counting functions used to characterise topology discovery -/

/-- Number of spans of a batch that belong to service `k`. -/
def svcCount (k : String) (l : List Span) : ℕ :=
  l.countP (fun s => decide (s.service_name = k))

/-- Number of error spans of a batch that belong to service `k`. -/
def svcErrCount (k : String) (l : List Span) : ℕ :=
  l.countP (fun s => decide (s.service_name = k) && isError s)

/-- Total (cast) latency of the spans of a batch that belong to service `k`. -/
def svcLatSum (k : String) (l : List Span) : ℕ :=
  ((l.filter (fun s => decide (s.service_name = k))).map spanLatencyU64).sum

/-- Whether a span contributes to the edge entry keyed `k`: it carries a
`peer.service` attribute and its `service_name:peer` key equals `k`. -/
def edgeTouch (k : String) (s : Span) : Bool :=
  match lookupAttr s.attributes "peer.service" with
  | some peer => decide (edgeKey s.service_name peer = k)
  | none => false

/-- Number of spans of a batch contributing to edge `k`. -/
def edgeReqCount (k : String) (l : List Span) : ℕ :=
  l.countP (edgeTouch k)

/-- Number of error spans of a batch contributing to edge `k`. -/
def edgeErrCount (k : String) (l : List Span) : ℕ :=
  l.countP (fun s => edgeTouch k s && isError s)

/-! ## Spec-side definition for the `check_metrics` refinement claim -/

/-- Modelled from the spec's words (§4.4 metric rules): the first metric in
input order that has a known baseline and whose z-score magnitude exceeds
3.0 (with the IEEE reading of the quotient captured by `zExceeds`).  Used
only to be compared with the source-derived `check_metrics`. -/
def specFirstAnomaly (d : AnomalyDetector) (ms : List Metric) : Option Metric :=
  ms.find? (fun m =>
    match d.baseline_metrics m.name with
    | some b => zExceeds m.value b.mean b.std_dev
    | none => false)

/-! ## Concrete example inputs for witnesses and counterexamples -/

/-- Example anomaly-detection config. -/
def cfgAd : AnomalyDetectionConfig :=
  { enabled := true, algorithm := "zscore", sensitivity := 1 }

/-- Example trace-correlation config (default 300 s window). -/
def cfgTc : TraceCorrelationConfig :=
  { enabled := true, window_seconds := 300 }

/-- Example topology-discovery config. -/
def cfgTd : TopologyDiscoveryConfig :=
  { enabled := true, update_interval_seconds := 60 }

/-- A span that ended in error (latency 10 ns). -/
def exErrSpan : Span :=
  { trace_id := "t1", span_id := "s1", parent_span_id := none,
    operation_name := "op", service_name := "svc", start_time := 0,
    end_time := 10, status := .error "boom", attributes := [] }

/-- A successful span of service `svc` calling `db` (latency 5 ns). -/
def exOkSpan : Span :=
  { trace_id := "t1", span_id := "s2", parent_span_id := some "s1",
    operation_name := "op2", service_name := "svc", start_time := 0,
    end_time := 5, status := .ok, attributes := [("peer.service", "db")] }

/-- A metric named `cpu` with value 95. -/
def exCpuMetric : Metric :=
  { name := "cpu", value := 95, timestamp := 0, labels := [],
    metric_type := .gauge }

/-- A detector whose baseline map holds `cpu ↦ {mean 50, std_dev 0}`: the
degenerate baseline the spec says must be guarded. -/
def exDetectorZeroSd : AnomalyDetector :=
  { config := cfgAd,
    baseline_metrics := fun n =>
      if n = "cpu" then some { mean := 50, std_dev := 0, count := 1 } else none }

/-- A fully built engine state: all three analytics components enabled and
the storage sink installed, as `build_pipeline` produces. -/
def exEngineState : EngineState :=
  { anomaly_detector := some (AnomalyDetector.new cfgAd),
    trace_correlator := some (TraceCorrelator.new cfgTc),
    topology_discovery := some (TopologyDiscovery.new cfgTd),
    has_storage := true }

/-- Environment where both fallible effects succeed. -/
def exEnvOk : EffectEnv := { sendOk := true, writeOk := true, now := 0 }

/-- Environment where the broadcast send fails (no live subscriber). -/
def exEnvSendFail : EffectEnv := { sendOk := false, writeOk := true, now := 0 }

/-- Environment where the storage write fails. -/
def exEnvWriteFail : EffectEnv := { sendOk := true, writeOk := false, now := 0 }

/-- A traces batch whose error rate is 100 %, so it produces an alert. -/
def exAlertBatch : TelemetryData := .traces [exErrSpan]

/-- A logs batch: the analytics phase ignores it. -/
def exLogsBatch : TelemetryData := .logs []

/-- An example topology state with one service and one edge entry. -/
def exTopology : TopologyDiscovery :=
  (TopologyDiscovery.new cfgTd).process [exOkSpan]

/-- Add `(a, b, c)` to a service counter triple, creating it if absent. -/
def bump3 (a b c : ℕ) : Option (ℕ × ℕ × ℕ) → ℕ × ℕ × ℕ
  | some v => (v.1 + a, v.2.1 + b, v.2.2 + c)
  | none => (a, b, c)

/-- Add `(a, b)` to an edge counter pair, creating it if absent. -/
def bump2 (a b : ℕ) : Option (ℕ × ℕ) → ℕ × ℕ
  | some v => (v.1 + a, v.2 + b)
  | none => (a, b)

/-- Add batch totals to an optional service counter triple: an existing
entry is incremented; an absent entry is created only when the batch
actually touched the service. -/
def applyCounts3 (cnt err lat : ℕ) : Option (ℕ × ℕ × ℕ) → Option (ℕ × ℕ × ℕ)
  | some v => some (v.1 + cnt, v.2.1 + err, v.2.2 + lat)
  | none => if cnt = 0 then none else some (cnt, err, lat)

/-- Add batch totals to an optional edge counter pair. -/
def applyCounts2 (cnt err : ℕ) : Option (ℕ × ℕ) → Option (ℕ × ℕ)
  | some v => some (v.1 + cnt, v.2 + err)
  | none => if cnt = 0 then none else some (cnt, err)

/-! ## Theorems -/

/-- C3: for every non-empty span batch, `check_traces` returns the
`Critical` "High Error Rate" alert when the error rate exceeds 0.10 (and
hence never the latency warning for that batch); exactly the `Warning`
"High Latency" alert when the error rate is at most 0.10 and the mean span
latency exceeds 1e9 ns; and no alert when the error rate is at most 0.10
and the mean latency is at most 1e9 ns. -/
theorem check_traces_classification (d : AnomalyDetector) (spans : List Span)
    (hne : spans ≠ []) :
    ((errorCount spans : ℚ) / (spans.length : ℚ) > 1/10 →
      d.check_traces spans =
        some { name := "High Error Rate", severity := .critical, labels := [] }) ∧
    ((errorCount spans : ℚ) / (spans.length : ℚ) ≤ 1/10 →
      latencySum spans / (spans.length : ℚ) > 1000000000 →
      d.check_traces spans =
        some { name := "High Latency", severity := .warning, labels := [] }) ∧
    ((errorCount spans : ℚ) / (spans.length : ℚ) ≤ 1/10 →
      latencySum spans / (spans.length : ℚ) ≤ 1000000000 →
      d.check_traces spans = none) := by
  refine ⟨fun h1 => ?_, fun h1 h2 => ?_, fun h1 h2 => ?_⟩ <;>
    simp only [AnomalyDetector.check_traces]
  · rw [if_pos h1]
  · rw [if_neg (not_lt.mpr h1), if_pos h2]
  · rw [if_neg (not_lt.mpr h1), if_neg (not_lt.mpr h2)]

/-- Witness for C3: a single-span batch with one error span has error rate
1 > 0.10 and yields the `Critical` "High Error Rate" alert. -/
theorem check_traces_classification_witness :
    (AnomalyDetector.new cfgAd).check_traces [exErrSpan] =
      some { name := "High Error Rate", severity := .critical, labels := [] } :=
  (check_traces_classification (AnomalyDetector.new cfgAd) [exErrSpan]
    (by decide)).1 (by
      have e1 : errorCount [exErrSpan] = 1 := rfl
      have e2 : ([exErrSpan] : List Span).length = 1 := rfl
      rw [e1, e2]; norm_num)

/-- C4: on the empty span batch `check_traces` returns no alert and does not
fault, even though both the error rate and the mean latency are quotients by
the batch length (zero): the IEEE `0.0/0.0 = NaN` makes both threshold
comparisons false, exactly as the rational model's division by zero does. -/
theorem check_traces_empty (d : AnomalyDetector) :
    d.check_traces [] = none := by
  simp only [AnomalyDetector.check_traces, errorCount, latencySum, List.filter_nil,
    List.length_nil, List.map_nil, List.sum_nil, Nat.cast_zero, div_zero,
    Nat.cast_ofNat, CharP.cast_eq_zero]
  norm_num

/-- C5 (code bug): `check_metrics` has no `std_dev = 0` guard.  For the
metric `cpu = 95` against the baseline `{mean 50, std_dev 0}` the Rust code
computes `z = (95 − 50)/0.0 = +∞`, `z.abs() > 3.0` holds, and the `Warning`
anomaly alert is emitted — the metric is not treated as "no signal" as the
spec requires. -/
theorem check_metrics_zero_std_dev_alerts :
    exDetectorZeroSd.check_metrics [exCpuMetric] =
      some { name := "Anomaly in cpu", severity := .warning, labels := [] } := by
  simp [AnomalyDetector.check_metrics, exDetectorZeroSd, exCpuMetric, zExceeds]

/-- C6: `check_metrics` returns exactly the `Warning` "Anomaly in <name>"
alert of the first metric in input order that has a known baseline and whose
z-score magnitude exceeds 3.0 (metrics without a baseline are silently
skipped), and no alert when no metric qualifies — i.e. it refines the
first-qualifying-metric selector written from the spec's words. -/
theorem check_metrics_first_anomaly (d : AnomalyDetector) (ms : List Metric) :
    d.check_metrics ms = (specFirstAnomaly d ms).map
      (fun m => { name := "Anomaly in " ++ m.name, severity := .warning,
                  labels := m.labels }) := by
  induction ms with
  | nil => rfl
  | cons m rest ih =>
    cases hb : d.baseline_metrics m.name with
    | none =>
      simp [AnomalyDetector.check_metrics, specFirstAnomaly, List.find?, hb, ih,
        specFirstAnomaly]
    | some b =>
      by_cases hz : zExceeds m.value b.mean b.std_dev
      · simp [AnomalyDetector.check_metrics, specFirstAnomaly, List.find?, hb, hz]
      · simp [AnomalyDetector.check_metrics, specFirstAnomaly, List.find?, hb, hz,
          ih]

/-- C10: a detector produced by `AnomalyDetector::new` has an empty baseline
map, no detector operation ever inserts into it (both `check_traces` and
`check_metrics` take the detector immutably and return only an optional
alert), and consequently `check_metrics` returns no alert on every metric
batch evaluated against such a detector. -/
theorem new_detector_baselines_inert (cfg : AnomalyDetectionConfig) :
    (∀ n, (AnomalyDetector.new cfg).baseline_metrics n = none) ∧
    (∀ ms, (AnomalyDetector.new cfg).check_metrics ms = none) := by
  refine ⟨fun n => rfl, fun ms => ?_⟩
  induction ms with
  | nil => rfl
  | cons m rest ih => simpa [AnomalyDetector.check_metrics, AnomalyDetector.new]
      using ih

/-- C7: after every `TraceCorrelator::process` call, a trace entry is present
in the window (with content `l`) iff the appended map has that entry and at
least one of its member spans has `end_time` strictly greater than
`cutoff = now_ms − window_seconds*1000`; every entry all of whose spans are
at or below the cutoff is removed by that same call, since eviction runs
unconditionally on every `process` invocation. -/
theorem trace_window_membership (c : TraceCorrelator) (spans : List Span)
    (now : ℤ) (tid : String) (l : List Span) :
    (c.process spans now).traces tid = some l ↔
      (insertSpans c.traces spans tid = some l ∧
       ∃ s ∈ l, cutoffOf c.config now < s.end_time) := by
  show (TraceCorrelator.cleanup_old_traces _ now).traces tid = some l ↔ _
  simp only [TraceCorrelator.cleanup_old_traces]
  cases h : insertSpans c.traces spans tid with
  | none => simp [h]
  | some sp =>
    simp only [h]
    by_cases ha : (sp.any (fun s => decide (cutoffOf c.config now < s.end_time))) = true
    · rw [if_pos ha]
      constructor
      · intro hb
        injection hb with hb
        subst hb
        exact ⟨rfl, by simpa [List.any_eq_true] using ha⟩
      · rintro ⟨hb, _⟩
        exact hb
    · rw [if_neg ha]
      constructor
      · intro hb; cases hb
      · rintro ⟨hb, hs⟩
        injection hb with hb
        subst hb
        exact absurd (by simpa [List.any_eq_true] using hs) ha

/-- The service map written by one `stepSpan`: the span's service entry is
upserted, every other key is untouched (identical in both branches of the
`peer.service` match). -/
theorem stepSpan_services (t : TopologyDiscovery) (s : Span) (k : String) :
    (stepSpan t s).services k =
      (if k = s.service_name then
        some (let s0 := (t.services s.service_name).getD
                { name := s.service_name, span_count := 0, error_count := 0,
                  total_latency_ns := 0 }
              { s0 with
                span_count := s0.span_count + 1,
                total_latency_ns := s0.total_latency_ns + spanLatencyU64 s,
                error_count := s0.error_count + (if isError s then 1 else 0) })
      else t.services k) := by
  unfold stepSpan
  cases lookupAttr s.attributes "peer.service" <;> rfl

/-- The edge map written by one `stepSpan`: when the span carries a
`peer.service` attribute its edge entry is upserted, otherwise the map is
untouched. -/
theorem stepSpan_edges (t : TopologyDiscovery) (s : Span) (k : String) :
    (stepSpan t s).edges k =
      (match lookupAttr s.attributes "peer.service" with
      | some peer =>
        if k = edgeKey s.service_name peer then
          some (let e0 := (t.edges (edgeKey s.service_name peer)).getD
                  { source := s.service_name, target := peer,
                    request_count := 0, error_count := 0 }
                { e0 with
                  request_count := e0.request_count + 1,
                  error_count := e0.error_count + (if isError s then 1 else 0) })
        else t.edges k
      | none => t.edges k) := by
  unfold stepSpan
  cases lookupAttr s.attributes "peer.service" <;> rfl

/-- Service counters after one step: bump the span's own service, leave the
rest alone. -/
theorem svcCounters_stepSpan (t : TopologyDiscovery) (s : Span) (k : String) :
    svcCounters (stepSpan t s) k =
      (if k = s.service_name then
        some (bump3 1 (if isError s then 1 else 0) (spanLatencyU64 s)
          (svcCounters t s.service_name))
      else svcCounters t k) := by
  unfold svcCounters
  rw [stepSpan_services]
  by_cases hk : k = s.service_name
  · rw [if_pos hk, if_pos hk]
    cases ht : t.services s.service_name <;> simp [ht, bump3]
  · rw [if_neg hk, if_neg hk]

/-- Edge counters after one step: bump the span's edge (when the span
touches one), leave the rest alone. -/
theorem edgeCounters_stepSpan (t : TopologyDiscovery) (s : Span) (k : String) :
    edgeCounters (stepSpan t s) k =
      (if edgeTouch k s then
        some (bump2 1 (if isError s then 1 else 0) (edgeCounters t k))
      else edgeCounters t k) := by
  unfold edgeCounters edgeTouch
  rw [stepSpan_edges]
  cases hp : lookupAttr s.attributes "peer.service" with
  | none => simp
  | some peer =>
    by_cases hk : k = edgeKey s.service_name peer
    · subst hk
      cases ht : t.edges (edgeKey s.service_name peer) <;> simp [ht, bump2]
    · have hk2 : ¬ (edgeKey s.service_name peer = k) := fun h => hk h.symm
      simp [hk, hk2]

/-- Closed form of the service counters after `TopologyDiscovery::process`:
the batch adds its per-service totals to whatever was there before. -/
theorem svcCounters_process (l : List Span) :
    ∀ (t : TopologyDiscovery) (k : String),
      svcCounters (t.process l) k =
        applyCounts3 (svcCount k l) (svcErrCount k l) (svcLatSum k l)
          (svcCounters t k) := by
  induction l with
  | nil =>
    intro t k
    cases h : svcCounters t k <;>
      simp [TopologyDiscovery.process, svcCount, svcErrCount, svcLatSum,
        applyCounts3, h]
  | cons s l ih =>
    intro t k
    have hstep : TopologyDiscovery.process t (s :: l)
        = TopologyDiscovery.process (stepSpan t s) l := rfl
    rw [hstep, ih, svcCounters_stepSpan]
    by_cases hk : k = s.service_name
    · subst hk
      rw [if_pos rfl]
      cases hsc : svcCounters t s.service_name <;> cases he : isError s <;>
        simp [applyCounts3, bump3, svcCount, svcErrCount, svcLatSum,
          List.countP_cons, List.filter_cons, he, hsc] <;>
        simp [Nat.add_comm, Nat.add_left_comm, Nat.add_assoc]
    · rw [if_neg hk]
      have hk2 : ¬ (s.service_name = k) := fun h => hk h.symm
      simp [svcCount, svcErrCount, svcLatSum, List.countP_cons,
        List.filter_cons, hk2]

/-- Closed form of the edge counters after `TopologyDiscovery::process`. -/
theorem edgeCounters_process (l : List Span) :
    ∀ (t : TopologyDiscovery) (k : String),
      edgeCounters (t.process l) k =
        applyCounts2 (edgeReqCount k l) (edgeErrCount k l) (edgeCounters t k) := by
  induction l with
  | nil =>
    intro t k
    cases h : edgeCounters t k <;>
      simp [TopologyDiscovery.process, edgeReqCount, edgeErrCount,
        applyCounts2, h]
  | cons s l ih =>
    intro t k
    have hstep : TopologyDiscovery.process t (s :: l)
        = TopologyDiscovery.process (stepSpan t s) l := rfl
    rw [hstep, ih, edgeCounters_stepSpan]
    by_cases hk : edgeTouch k s = true
    · rw [if_pos hk]
      cases hec : edgeCounters t k <;> cases he : isError s <;>
        simp [applyCounts2, bump2, edgeReqCount, edgeErrCount,
          List.countP_cons, hk, he, hec] <;>
        simp [Nat.add_comm, Nat.add_left_comm, Nat.add_assoc]
    · rw [if_neg hk]
      simp [edgeReqCount, edgeErrCount, List.countP_cons, hk]

/-- A sequence of `process` calls equals one `process` of the concatenated
batches: the per-span fold does not see batch boundaries. -/
theorem processAll_eq_process_flatten (bs : List (List Span)) :
    ∀ t : TopologyDiscovery, t.processAll bs = t.process bs.flatten := by
  induction bs with
  | nil => intro t; rfl
  | cons b bs ih =>
    intro t
    show (t.process b).processAll bs = t.process (b :: bs).flatten
    rw [ih]
    simp [TopologyDiscovery.process, List.flatten_cons, List.foldl_append]

/-- C8: topology discovery is commutative in its counters — processing the
same span multiset in any two orders, under any batch partitioning, yields
identical `ServiceNode` counters (span count, error count, cumulative
latency) and identical `Edge` counters (request count, error count) at
every key. -/
theorem topology_counters_perm (t : TopologyDiscovery)
    (bs₁ bs₂ : List (List Span)) (h : bs₁.flatten.Perm bs₂.flatten)
    (k : String) :
    svcCounters (t.processAll bs₁) k = svcCounters (t.processAll bs₂) k ∧
    edgeCounters (t.processAll bs₁) k = edgeCounters (t.processAll bs₂) k := by
  rw [processAll_eq_process_flatten, processAll_eq_process_flatten]
  constructor
  · rw [svcCounters_process, svcCounters_process]
    have h1 : svcCount k bs₁.flatten = svcCount k bs₂.flatten :=
      h.countP_eq _
    have h2 : svcErrCount k bs₁.flatten = svcErrCount k bs₂.flatten :=
      h.countP_eq _
    have h3 : svcLatSum k bs₁.flatten = svcLatSum k bs₂.flatten :=
      (List.Perm.map spanLatencyU64 (h.filter _)).sum_eq
    rw [h1, h2, h3]
  · rw [edgeCounters_process, edgeCounters_process]
    have h1 : edgeReqCount k bs₁.flatten = edgeReqCount k bs₂.flatten :=
      h.countP_eq _
    have h2 : edgeErrCount k bs₁.flatten = edgeErrCount k bs₂.flatten :=
      h.countP_eq _
    rw [h1, h2]

/-- Witness for C8: the two-span batch `[err, ok]` in one batch versus the
two singleton batches `[ok], [err]` give identical service counters at
`svc` (and identical edge counters at `svc:db`). -/
theorem topology_counters_perm_witness :
    svcCounters ((TopologyDiscovery.new cfgTd).processAll
        [[exErrSpan, exOkSpan]]) "svc" =
      svcCounters ((TopologyDiscovery.new cfgTd).processAll
        [[exOkSpan], [exErrSpan]]) "svc" ∧
    edgeCounters ((TopologyDiscovery.new cfgTd).processAll
        [[exErrSpan, exOkSpan]]) "svc" =
      edgeCounters ((TopologyDiscovery.new cfgTd).processAll
        [[exOkSpan], [exErrSpan]]) "svc" :=
  topology_counters_perm (TopologyDiscovery.new cfgTd)
    [[exErrSpan, exOkSpan]] [[exOkSpan], [exErrSpan]] (by decide) "svc"

/-- C9: across any sequence of `process` calls, every service counter and
every edge counter is monotonically non-decreasing, and no entry is ever
removed: an entry present before is present after with componentwise
greater-or-equal counters. -/
theorem topology_counters_monotone (t : TopologyDiscovery)
    (bs : List (List Span)) (k : String) :
    (∀ v, svcCounters t k = some v →
      ∃ w, svcCounters (t.processAll bs) k = some w ∧
        v.1 ≤ w.1 ∧ v.2.1 ≤ w.2.1 ∧ v.2.2 ≤ w.2.2) ∧
    (∀ v, edgeCounters t k = some v →
      ∃ w, edgeCounters (t.processAll bs) k = some w ∧
        v.1 ≤ w.1 ∧ v.2 ≤ w.2) := by
  rw [processAll_eq_process_flatten]
  constructor
  · intro v hv
    rw [svcCounters_process, hv]
    exact ⟨_, rfl, Nat.le_add_right _ _, Nat.le_add_right _ _,
      Nat.le_add_right _ _⟩
  · intro v hv
    rw [edgeCounters_process, hv]
    exact ⟨_, rfl, Nat.le_add_right _ _, Nat.le_add_right _ _⟩

/-- Witness for C9: the topology state holding one `svc` entry with counters
`(1, 0, 5)` still has the entry, with counters at least `(1, 0, 5)`, after
processing a further error-span batch. -/
theorem topology_counters_monotone_witness :
    ∃ w, svcCounters (exTopology.processAll [[exErrSpan]]) "svc" = some w ∧
      (1 : ℕ) ≤ w.1 ∧ (0 : ℕ) ≤ w.2.1 ∧ (5 : ℕ) ≤ w.2.2 :=
  (topology_counters_monotone exTopology [[exErrSpan]] "svc").1
    (1, 0, 5) (by decide)

/-- Evaluation helper: the one-error-span batch trips the error-rate rule. -/
theorem exErr_check_traces :
    (AnomalyDetector.new cfgAd).check_traces [exErrSpan] =
      some { name := "High Error Rate", severity := .critical, labels := [] } := by
  have hgt : ((errorCount [exErrSpan] : ℚ) / (([exErrSpan] : List Span).length : ℚ))
      > 1/10 := by
    have e1 : errorCount [exErrSpan] = 1 := rfl
    have e2 : ([exErrSpan] : List Span).length = 1 := rfl
    rw [e1, e2]; norm_num
  simp only [AnomalyDetector.check_traces]
  rw [if_pos hgt]

/-- Helper: an error propagated by `process_data` ends the consume loop at
that batch; the remaining queued batches are not consumed. -/
theorem runLoop_cons_err (st : EngineState) (env : EffectEnv)
    (data : TelemetryData) (rest : List (EffectEnv × TelemetryData))
    (e : EngineError) (h : (processData st env data).err = some e) :
    runLoop st ((env, data) :: rest)
      = ((processData st env data).state, [(processData st env data).fx],
         some e) := by
  simp only [runLoop]
  rw [h]

/-- C1 (counterexample): on a fully built engine and an alerting `Traces`
batch, the effect sequence is correlate, topology, detect, publish, store —
the publish to the fan-out happens before the durable storage write, not
after it as the claim states. -/
theorem c1_effect_order_counterexample :
    (processData exEngineState exEnvOk exAlertBatch).fx
        = [Effect.correlate, Effect.topology, Effect.detect, Effect.publish,
           Effect.store] ∧
    (processData exEngineState exEnvOk exAlertBatch).fx
        ≠ [Effect.correlate, Effect.topology, Effect.detect, Effect.store,
           Effect.publish] := by
  have h1 : (processData exEngineState exEnvOk exAlertBatch).fx
      = [Effect.correlate, Effect.topology, Effect.detect, Effect.publish,
         Effect.store] := by
    simp [processData, processInner, exEngineState, exAlertBatch, exEnvOk,
      exErr_check_traces]
  exact ⟨h1, by rw [h1]; decide⟩

/-- C1 (amended): for every `Traces` batch on an engine with all three
analytics components and the storage sink installed, and a successful
publish, the per-batch effect order is: correlation, topology update,
anomaly detection, then — only if the detector produced an alert — the
publish to the fan-out, and last the durable storage write. -/
theorem c1_amended_effect_order (st : EngineState) (env : EffectEnv)
    (spans : List Span) (c : TraceCorrelator) (tp : TopologyDiscovery)
    (d : AnomalyDetector) (hc : st.trace_correlator = some c)
    (ht : st.topology_discovery = some tp) (hd : st.anomaly_detector = some d)
    (hs : st.has_storage = true) (hsend : env.sendOk = true) :
    (processData st env (.traces spans)).fx =
      [Effect.correlate, Effect.topology, Effect.detect] ++
      (match d.check_traces spans with
       | some _ => [Effect.publish]
       | none => []) ++ [Effect.store] := by
  cases hct : d.check_traces spans <;>
    simp [processData, processInner, hc, ht, hd, hct, hs, hsend]

/-- Witness for the amended C1 at the concrete alerting batch. -/
theorem c1_amended_effect_order_witness :
    (processData exEngineState exEnvOk (.traces [exErrSpan])).fx =
      [Effect.correlate, Effect.topology, Effect.detect] ++
      (match (AnomalyDetector.new cfgAd).check_traces [exErrSpan] with
       | some _ => [Effect.publish]
       | none => []) ++ [Effect.store] :=
  c1_amended_effect_order exEngineState exEnvOk [exErrSpan]
    (TraceCorrelator.new cfgTc) (TopologyDiscovery.new cfgTd)
    (AnomalyDetector.new cfgAd) rfl rfl rfl rfl rfl

/-- C2 (counterexample): a failed alert publish (`send` with no live
subscriber) aborts `process_data` before the storage write — `store` is not
among the fired effects — and a storage `WriteError` is not swallowed: the
run loop returns it after the first batch, leaving the second queued batch
unconsumed. -/
theorem c2_failure_isolation_counterexample :
    (Effect.store ∉ (processData exEngineState exEnvSendFail exAlertBatch).fx ∧
     (processData exEngineState exEnvSendFail exAlertBatch).err
        = some EngineError.sendError) ∧
    (runLoop exEngineState
        [(exEnvWriteFail, exLogsBatch), (exEnvOk, exLogsBatch)]).2
      = ([[Effect.store]], some EngineError.writeError) := by
  have h1 : (processData exEngineState exEnvSendFail exAlertBatch).fx
      = [Effect.correlate, Effect.topology, Effect.detect, Effect.publish] := by
    simp [processData, processInner, exEngineState, exAlertBatch,
      exEnvSendFail, exErr_check_traces]
  refine ⟨⟨by rw [h1]; decide, ?_⟩, ?_⟩
  · simp [processData, processInner, exEngineState, exAlertBatch,
      exEnvSendFail, exErr_check_traces]
  · simp [runLoop, processData, processInner, exEngineState, exEnvWriteFail,
      exEnvOk, exLogsBatch]

/-- C2 (amended): within one batch the alert publish precedes the storage
write, so a storage failure cannot prevent the publish; but a failed publish
returns early and skips the storage write, and any per-batch error (send or
write) propagates out of `process_data` and stops the consume loop with the
remaining batches unconsumed — the engine does not log-and-continue. -/
theorem c2_amended_failure_semantics (st : EngineState) (env : EffectEnv)
    (spans : List Span) (d : AnomalyDetector) (a : Alert)
    (hd : st.anomaly_detector = some d)
    (ha : d.check_traces spans = some a)
    (rest : List (EffectEnv × TelemetryData)) :
    (env.sendOk = true →
       Effect.publish ∈ (processData st env (.traces spans)).fx) ∧
    (env.sendOk = false →
       Effect.publish ∈ (processData st env (.traces spans)).fx ∧
       Effect.store ∉ (processData st env (.traces spans)).fx ∧
       (processData st env (.traces spans)).err
         = some EngineError.sendError) ∧
    (∀ e, (processData st env (.traces spans)).err = some e →
       runLoop st ((env, .traces spans) :: rest)
         = ((processData st env (.traces spans)).state,
            [(processData st env (.traces spans)).fx], some e)) := by
  refine ⟨fun hsend => ?_, fun hsend => ?_,
    fun e he => runLoop_cons_err st env _ rest e he⟩
  · cases hc : st.trace_correlator <;> cases htp : st.topology_discovery <;>
      cases hst : st.has_storage <;>
      simp [processData, processInner, hc, htp, hd, ha, hsend, hst]
  · cases hc : st.trace_correlator <;> cases htp : st.topology_discovery <;>
      simp [processData, processInner, hc, htp, hd, ha, hsend]

/-- Witness for the amended C2 at the concrete alerting batch with a failed
publish: the publish was attempted, the storage write was skipped, and the
send error is propagated. -/
theorem c2_amended_failure_semantics_witness :
    Effect.publish ∈ (processData exEngineState exEnvSendFail
        (.traces [exErrSpan])).fx ∧
    Effect.store ∉ (processData exEngineState exEnvSendFail
        (.traces [exErrSpan])).fx ∧
    (processData exEngineState exEnvSendFail (.traces [exErrSpan])).err
      = some EngineError.sendError :=
  (c2_amended_failure_semantics exEngineState exEnvSendFail [exErrSpan]
    (AnomalyDetector.new cfgAd)
    { name := "High Error Rate", severity := .critical, labels := [] }
    rfl exErr_check_traces []).2.1 rfl
